import Mathlib

/-!
Shallow embedding of the fxnlabs function-go-sdk client library (`sdk.go`):
the generic `ResponseStream` wrapper, the streaming chat-complete call, the
authentication hook and client construction.

Modelling conventions:
* A Go `error` result (nilable) is `Option GoError`, with `none` standing for
  a nil error.
* The external transport handle `connect.ServerStreamForClient[TIn]` is
  modelled abstractly and faithfully to the interface `sdk.go` consumes:
  `Receive` advances the stream and reports whether a message arrived,
  `Msg` yields the current message, `Err` yields the error the transport
  currently reports, `Close` tears the stream down.  Each pending element may
  carry an attached advisory error (what `Err()` reports right after that
  element is received), and the stream carries a terminal error (what `Err()`
  reports once `Receive` returns `false`; `none` models a clean end of
  stream).  This covers both a clean exhaustion and a terminal transport
  failure during a read attempt.
* Go methods that mutate their receiver are state-passing functions returning
  the result together with the updated state.
-/

set_option autoImplicit false

/-- Go error values relevant to the SDK.  `transport` stands for an arbitrary
error produced by the underlying call mechanism. -/
inductive GoError where
  | ioEOF
  | missingApiKey
  | truncatedStreamResponse
  | transport (msg : String)
  deriving DecidableEq, Repr

/-- `MissingApiKeyError` from `sdk.go`: returned when a client was being
created, but no API key was provided for it to use. -/
def MissingApiKeyError : GoError := GoError.missingApiKey

/-- `TruncatedStreamResponseError` from `sdk.go`: returned when a streaming
response was truncated and required information could not be obtained. -/
def TruncatedStreamResponseError : GoError := GoError.truncatedStreamResponse

/-- `DefaultBaseUrl` from `sdk.go`: the default API gateway base URL. -/
def DefaultBaseUrl : String := "https://api.function.network"

/-- Abstract model of the external `connect.ServerStreamForClient[TIn]`
handle, exactly as wide as the interface `sdk.go` uses (`Receive`, `Msg`,
`Err`, `Close`).  `pending` lists the elements the transport will still
deliver, each with the error `Err()` reports alongside it; `termErr` is the
error `Err()` reports after `Receive` returns `false` (`none` for a clean end
of stream); `closeErr` is the error `Close()` reports during teardown. -/
structure ServerStreamForClient (TIn : Type) where
  pending : List (TIn × Option GoError)
  termErr : Option GoError
  closeErr : Option GoError
  msg : TIn
  curErr : Option GoError
  deriving Repr

/-- Model of `Receive()`: advances the stream by one element, returning
whether an element was available together with the updated handle. -/
def ServerStreamForClient.Receive {TIn : Type} (s : ServerStreamForClient TIn) :
    Bool × ServerStreamForClient TIn :=
  match s.pending with
  | (m, e) :: rest => (true, { s with pending := rest, msg := m, curErr := e })
  | [] => (false, { s with curErr := s.termErr })

/-- Model of `Msg()`: the message delivered by the last successful receive. -/
def ServerStreamForClient.Msg {TIn : Type} (s : ServerStreamForClient TIn) : TIn :=
  s.msg

/-- Model of `Err()`: the error the transport currently reports. -/
def ServerStreamForClient.Err {TIn : Type} (s : ServerStreamForClient TIn) :
    Option GoError :=
  s.curErr

/-- Model of `Close()`: the error the transport reports during teardown. -/
def ServerStreamForClient.Close {TIn : Type} (s : ServerStreamForClient TIn) :
    Option GoError :=
  s.closeErr

/-- `ResponseStream[TIn, TOut]` from `sdk.go`: a streaming response read
chunk-by-chunk, wrapping a `connect.ServerStreamForClient` and a per-element
transformer. -/
structure ResponseStream (TIn TOut : Type) where
  isClosed : Bool
  stream : ServerStreamForClient TIn
  transformer : TIn → TOut

/-- `ResponseStream.IsClosed` from `sdk.go`. -/
def ResponseStream.IsClosed {TIn TOut : Type} (r : ResponseStream TIn TOut) : Bool :=
  r.isClosed

/-- `ResponseStream.Read` from `sdk.go`, as a state-passing function.  `var
empty TOut` (the Go zero value) is modelled by `default`.  Mirrors the
source: a closed stream yields `(empty, io.EOF)`; a failed `Receive` marks
the stream closed and yields `(empty, io.EOF)`; otherwise the transformed
message is returned together with `stream.Err()`. -/
def ResponseStream.Read {TIn TOut : Type} [Inhabited TOut]
    (r : ResponseStream TIn TOut) :
    (TOut × Option GoError) × ResponseStream TIn TOut :=
  if r.isClosed then
    ((default, some GoError.ioEOF), r)
  else
    match r.stream.Receive with
    | (false, s) => ((default, some GoError.ioEOF), { r with isClosed := true, stream := s })
    | (true, s) => ((r.transformer s.Msg, s.Err), { r with stream := s })

/-- `ResponseStream.Close` from `sdk.go`, as a state-passing function: sets
`isClosed` regardless of the teardown outcome and returns `stream.Close()`. -/
def ResponseStream.Close {TIn TOut : Type} (r : ResponseStream TIn TOut) :
    Option GoError × ResponseStream TIn TOut :=
  (r.stream.Close, { r with isClosed := true })

/-- `wrapStream` from `sdk.go`: creates a `ResponseStream` wrapping a
`connect.ServerStreamForClient`. -/
def wrapStream {TIn TOut : Type} (stream : ServerStreamForClient TIn)
    (transformer : TIn → TOut) : ResponseStream TIn TOut :=
  { isClosed := false, stream := stream, transformer := transformer }

/-- An operation a caller can perform on a `ResponseStream`. -/
inductive StreamOp where
  | read
  | close
  deriving DecidableEq, Repr

/-- Runs a sequence of caller operations against a `ResponseStream`,
discarding the returned values and keeping the state. -/
def runOps {TIn TOut : Type} [Inhabited TOut] :
    List StreamOp → ResponseStream TIn TOut → ResponseStream TIn TOut
  | [], r => r
  | StreamOp.read :: ops, r => runOps ops (r.Read).2
  | StreamOp.close :: ops, r => runOps ops (r.Close).2

/-- Performs `n` successive `Read` calls, collecting the returned
value/error pairs in order together with the final state. -/
def readN {TIn TOut : Type} [Inhabited TOut] :
    Nat → ResponseStream TIn TOut →
    List (TOut × Option GoError) × ResponseStream TIn TOut
  | 0, r => ([], r)
  | Nat.succ n, r =>
    let step := r.Read
    let rest := readN n step.2
    (step.1 :: rest.1, rest.2)

namespace apigatewayv1

/-- Model of the wire-level chat message carried inside a streamed chunk
(the generated protobuf type behind `res.Response`): a role and a textual
content field. -/
structure ChatMessage where
  Role : String
  Content : String
  deriving DecidableEq, Repr

/-- Model of the generated wire type `apigatewayv1.ChatCompleteStreamResponse`:
the SDK inspects only its `Response` message with `Role` and `Content`. -/
structure ChatCompleteStreamResponse where
  Response : ChatMessage
  deriving DecidableEq, Repr

end apigatewayv1

/-- `chatCompleteStreamToStringTransformer` from `sdk.go`: projects a streamed
wire chunk to its textual content (`res.Response.Content`). -/
def chatCompleteStreamToStringTransformer
    (res : apigatewayv1.ChatCompleteStreamResponse) : String :=
  res.Response.Content

/-- `ChatCompleteStreamResponse` from `sdk.go` (the SDK-level struct): the
role of the response message and a readable stream of output tokens. -/
structure ChatCompleteStreamResponse where
  Role : String
  TokenStream : ResponseStream apigatewayv1.ChatCompleteStreamResponse String

/-- `Client.ChatCompleteStream` from `sdk.go`, after the service call.  The
outcome of `c.service.ChatCompleteStream(ctx, ...)` is external transport
activity, so it is passed in explicitly as `callResult` (a setup error or the
obtained stream handle); everything from there on mirrors the source: a
setup error propagates; a failed first `Receive` yields
`TruncatedStreamResponseError`; a non-nil `res.Err()` after the first receive
propagates; otherwise the role is taken from the first message and the
remainder is wrapped with `chatCompleteStreamToStringTransformer`. -/
def ChatCompleteStream
    (callResult : Except GoError (ServerStreamForClient apigatewayv1.ChatCompleteStreamResponse)) :
    Except GoError ChatCompleteStreamResponse :=
  match callResult with
  | Except.error err => Except.error err
  | Except.ok res =>
    match res.Receive with
    | (false, _) => Except.error TruncatedStreamResponseError
    | (true, res) =>
      match res.Err with
      | some err => Except.error err
      | none =>
        Except.ok
          { Role := res.Msg.Response.Role
            TokenStream := wrapStream res chatCompleteStreamToStringTransformer }

/-- Outgoing request headers, with `Set` semantics matching Go's
`http.Header.Set` (replace any existing value for the key). -/
structure Headers where
  entries : List (String × String)
  deriving DecidableEq, Repr

/-- Model of `req.Header().Set(key, value)`. -/
def Headers.set (h : Headers) (k v : String) : Headers :=
  { entries := (k, v) :: h.entries.filter (fun p => p.1 != k) }

/-- Looks a header key up (for observing what reaches the wire). -/
def Headers.get (h : Headers) (k : String) : Option String :=
  (h.entries.find? (fun p => p.1 == k)).map Prod.snd

/-- Model of the client-relevant part of the external `connect.Interceptor`
interface.  A `UnaryFunc` / `StreamingClientFunc` continuation is abstracted
to its effect on the outgoing request headers (`Headers → Headers`), which is
all the SDK's hook touches; `wrapUnary` models `WrapUnary` (applied on every
unary RPC) and `wrapStreamingClient` models `WrapStreamingClient` (applied
when a streaming RPC call is set up). -/
structure Interceptor where
  wrapUnary : (Headers → Headers) → Headers → Headers
  wrapStreamingClient : (Headers → Headers) → Headers → Headers

/-- Model of the external `connect.UnaryInterceptorFunc` adapter, from the
connect-go library: a bare unary function is promoted to an `Interceptor`
whose `WrapUnary` applies the function and whose `WrapStreamingClient`
returns `next` unchanged — connect-go documents it as an interceptor that
"only wraps unary RPCs" and "has no effect on streaming RPCs". -/
def UnaryInterceptorFunc.asInterceptor
    (f : (Headers → Headers) → Headers → Headers) : Interceptor :=
  { wrapUnary := f, wrapStreamingClient := fun next => next }

/-- `newAuthInterceptor` from `sdk.go`: the returned hook sets the
`x-api-key` header to the configured key on the request, then forwards the
request to `next` otherwise unchanged. -/
def newAuthInterceptor (apiKey : String) :
    (Headers → Headers) → Headers → Headers :=
  fun next => fun req => next (req.set "x-api-key" apiKey)

/-- `HttpClient` from `sdk.go`, modelled as an opaque token: either the
default Go HTTP client (`http.DefaultClient`) or some caller-supplied one. -/
inductive HttpClient where
  | defaultClient
  | custom (id : Nat)
  deriving DecidableEq, Repr

/-- Model of the generated `apigatewayv1connect.APIGatewayServiceClient`
handle: it records the transport, the base URL and the installed
interceptors, which is everything `sdk.go` configures on it. -/
structure APIGatewayServiceClient where
  httpClient : HttpClient
  baseUrl : String
  interceptors : List Interceptor

/-- Model of `apigatewayv1connect.NewAPIGatewayServiceClient`. -/
def NewAPIGatewayServiceClient (httpClient : HttpClient) (baseUrl : String)
    (interceptors : List Interceptor) : APIGatewayServiceClient :=
  { httpClient := httpClient, baseUrl := baseUrl, interceptors := interceptors }

/-- Model of connect-go's client-side dispatch of a unary RPC (`ChatComplete`,
`Embed`, `TextToImage`, `Transcribe`): every installed interceptor's
`WrapUnary` wraps the terminal send, so applying the chain to the request
headers yields the headers that reach the wire. -/
def APIGatewayServiceClient.unaryRequestHeaders (svc : APIGatewayServiceClient)
    (req : Headers) : Headers :=
  (svc.interceptors.foldr (fun i next => i.wrapUnary next) id) req

/-- Model of connect-go's client-side dispatch of the server-streaming RPC
(`ChatCompleteStream`): every installed interceptor's `WrapStreamingClient`
wraps the terminal call setup. -/
def APIGatewayServiceClient.streamingRequestHeaders (svc : APIGatewayServiceClient)
    (req : Headers) : Headers :=
  (svc.interceptors.foldr (fun i next => i.wrapStreamingClient next) id) req

/-- `ClientOptions` from `sdk.go`.  The nilable `HttpClient` interface field
is an `Option`; an absent `BaseUrl` is the empty string, as in Go. -/
structure ClientOptions where
  ApiKey : String
  HttpClient : Option HttpClient
  BaseUrl : String

/-- `Client` from `sdk.go`: the API key and the bound RPC service handle. -/
structure Client where
  apiKey : String
  service : APIGatewayServiceClient

/-- `NewClient` from `sdk.go`: rejects an empty API key with
`MissingApiKeyError`; otherwise resolves the transport (caller-supplied, else
`http.DefaultClient`) and the base URL (caller-supplied, else
`DefaultBaseUrl`), builds the service handle with the auth hook installed via
`connect.WithInterceptors(newAuthInterceptor(...))` — wrapped, as in the
source, through the `connect.UnaryInterceptorFunc` adapter — and returns the
Client. -/
def NewClient (options : ClientOptions) : Except GoError Client :=
  if options.ApiKey = "" then
    Except.error MissingApiKeyError
  else
    let httpClient :=
      match options.HttpClient with
      | none => HttpClient.defaultClient
      | some c => c
    let baseUrl := if options.BaseUrl = "" then DefaultBaseUrl else options.BaseUrl
    let service := NewAPIGatewayServiceClient httpClient baseUrl
      [UnaryInterceptorFunc.asInterceptor (newAuthInterceptor options.ApiKey)]
    Except.ok { apiKey := options.ApiKey, service := service }

/-- Observes the value of the `x-api-key` header that reaches the wire for a
request issued through the client `NewClient` builds from `options`: `none`
when construction fails, otherwise the header value (or its absence) on a
streaming or unary request that starts with no headers. -/
def wireApiKey (options : ClientOptions) (streaming : Bool) : Option (Option String) :=
  match NewClient options with
  | Except.error _ => none
  | Except.ok c =>
    some ((if streaming then
            c.service.streamingRequestHeaders { entries := [] }
          else
            c.service.unaryRequestHeaders { entries := [] }).get "x-api-key")

/-- Observes the role of a successful streamed chat-complete response. -/
def responseRole : Except GoError ChatCompleteStreamResponse → Option String
  | Except.ok resp => some resp.Role
  | Except.error _ => none

/-- Observes the first `n` token-stream reads of a successful streamed
chat-complete response. -/
def responseTokenReads (n : Nat) :
    Except GoError ChatCompleteStreamResponse → Option (List (String × Option GoError))
  | Except.ok resp => some (readN n resp.TokenStream).1
  | Except.error _ => none

/-- A wire chunk with empty role and content (used as the initial `msg`
placeholder of concrete stream handles). -/
def emptyChunk : apigatewayv1.ChatCompleteStreamResponse :=
  { Response := { Role := "", Content := "" } }

/-- A concrete stream handle that ends cleanly before delivering any
element. -/
def emptyStream : ServerStreamForClient apigatewayv1.ChatCompleteStreamResponse :=
  { pending := [], termErr := none, closeErr := none, msg := emptyChunk, curErr := none }

/-- A concrete stream handle whose very first receive fails with a terminal
transport error (a mid-setup connection reset): `Receive` reports no element
and `Err()` then reports the transport error. -/
def brokenStream : ServerStreamForClient apigatewayv1.ChatCompleteStreamResponse :=
  { pending := [], termErr := some (GoError.transport "connection reset")
    closeErr := none, msg := emptyChunk, curErr := none }

/-- A concrete chunk carrying a role and a token. -/
def advisoryChunk : apigatewayv1.ChatCompleteStreamResponse :=
  { Response := { Role := "assistant", Content := "tok" } }

/-- A concrete stream handle whose first element arrives together with a
non-nil advisory transport error. -/
def advisoryErrStream : ServerStreamForClient apigatewayv1.ChatCompleteStreamResponse :=
  { pending := [(advisoryChunk, some (GoError.transport "advisory"))]
    termErr := none, closeErr := none, msg := emptyChunk, curErr := none }

/-- A concrete stream delivering a role-bearing first chunk and then the
tokens of a two-token reply. -/
def helloStream : ServerStreamForClient apigatewayv1.ChatCompleteStreamResponse :=
  { pending :=
      [ ({ Response := { Role := "assistant", Content := "" } }, none)
      , ({ Response := { Role := "", Content := "Hello" } }, none)
      , ({ Response := { Role := "", Content := " world" } }, none) ]
    termErr := none, closeErr := none, msg := emptyChunk, curErr := none }

/-- A concrete already-closed `ResponseStream` (as left behind by a `Close`
call or an exhausting `Read`). -/
def sampleClosedStream : ResponseStream apigatewayv1.ChatCompleteStreamResponse String :=
  { isClosed := true, stream := emptyStream
    transformer := chatCompleteStreamToStringTransformer }

/-- A client as built by `NewClient` for key `"k"` with all optional
configuration left absent. -/
def defaultOptionsClient : Client :=
  { apiKey := "k"
    service := NewAPIGatewayServiceClient HttpClient.defaultClient DefaultBaseUrl
      [UnaryInterceptorFunc.asInterceptor (newAuthInterceptor "k")] }

/-! ## Helper lemmas about the embedded operations -/

theorem receive_cons {TIn : Type} (s : ServerStreamForClient TIn) (m : TIn)
    (e : Option GoError) (rest : List (TIn × Option GoError))
    (hp : s.pending = (m, e) :: rest) :
    s.Receive = (true, { s with pending := rest, msg := m, curErr := e }) := by
  unfold ServerStreamForClient.Receive
  rw [hp]

theorem receive_nil {TIn : Type} (s : ServerStreamForClient TIn)
    (hp : s.pending = []) :
    s.Receive = (false, { s with curErr := s.termErr }) := by
  unfold ServerStreamForClient.Receive
  rw [hp]

theorem read_closed {TIn TOut : Type} [Inhabited TOut]
    (r : ResponseStream TIn TOut) (h : r.isClosed = true) :
    r.Read = ((default, some GoError.ioEOF), r) := by
  simp [ResponseStream.Read, h]

theorem read_open_cons {TIn TOut : Type} [Inhabited TOut]
    (r : ResponseStream TIn TOut) (m : TIn) (e : Option GoError)
    (rest : List (TIn × Option GoError))
    (h : r.isClosed = false) (hp : r.stream.pending = (m, e) :: rest) :
    r.Read = ((r.transformer m, e),
      { r with stream := { r.stream with pending := rest, msg := m, curErr := e } }) := by
  simp [ResponseStream.Read, h, receive_cons r.stream m e rest hp,
    ServerStreamForClient.Msg, ServerStreamForClient.Err]

theorem read_open_nil {TIn TOut : Type} [Inhabited TOut]
    (r : ResponseStream TIn TOut)
    (h : r.isClosed = false) (hp : r.stream.pending = []) :
    r.Read = ((default, some GoError.ioEOF),
      { r with isClosed := true, stream := { r.stream with curErr := r.stream.termErr } }) := by
  simp [ResponseStream.Read, h, receive_nil r.stream hp]

theorem runOps_preserves_closed {TIn TOut : Type} [Inhabited TOut] :
    ∀ (ops : List StreamOp) (r : ResponseStream TIn TOut),
      r.isClosed = true → (runOps ops r).isClosed = true := by
  intro ops
  induction ops with
  | nil => intro r h; exact h
  | cons op ops ih =>
    intro r h
    cases op with
    | read =>
      simp only [runOps, read_closed r h]
      exact ih r h
    | close =>
      simp only [runOps]
      exact ih _ rfl

theorem readN_closed {TIn TOut : Type} [Inhabited TOut]
    (r : ResponseStream TIn TOut) (h : r.isClosed = true) :
    ∀ n : Nat, readN n r = (List.replicate n ((default : TOut), some GoError.ioEOF), r) := by
  intro n
  induction n with
  | zero => simp [readN]
  | succ n ih => simp [readN, read_closed r h, ih, List.replicate_succ]

/-! ## Claims -/

/-- C1: once a `ResponseStream` is closed (by a `Close` call or by a `Read`
that encountered exhaustion or a terminal transport state), the closed flag
never reverts to false under any further sequence of operations, and every
subsequent `Read` returns the end-of-stream sentinel `io.EOF` with the zero
value, however many reads follow. -/
theorem responseStream_closed_is_terminal {TIn TOut : Type} [Inhabited TOut]
    (r : ResponseStream TIn TOut) (h : r.IsClosed = true) :
    (∀ ops : List StreamOp, (runOps ops r).IsClosed = true) ∧
    (∀ n : Nat, readN n r = (List.replicate n ((default : TOut), some GoError.ioEOF), r)) ∧
    (∀ q : ResponseStream TIn TOut, ((q.Close).2).IsClosed = true) ∧
    (∀ q : ResponseStream TIn TOut, q.IsClosed = false → q.stream.pending = [] →
      ((q.Read).2).IsClosed = true) := by
  refine ⟨fun ops => runOps_preserves_closed ops r h, readN_closed r h, fun q => rfl, ?_⟩
  intro q hq hp
  rw [read_open_nil q hq hp]
  rfl

/-- Witness for C1 at a concrete closed stream. -/
theorem responseStream_closed_is_terminal_witness :
    readN 3 sampleClosedStream =
      (List.replicate 3 (("" : String), some GoError.ioEOF), sampleClosedStream) :=
  (responseStream_closed_is_terminal sampleClosedStream rfl).2.1 3

/-- C2 (code bug): every RPC is supposed to carry the `x-api-key` header, but
the auth hook is installed through the `connect.UnaryInterceptorFunc`
adapter, which has no effect on streaming RPCs; so on a client built by
`NewClient` the unary requests carry the configured key while the streaming
chat-complete request reaches the wire without any `x-api-key` header. -/
theorem chatCompleteStream_request_lacks_api_key_header :
    wireApiKey { ApiKey := "secret", HttpClient := none, BaseUrl := "" } true = some none ∧
    wireApiKey { ApiKey := "secret", HttpClient := none, BaseUrl := "" } false = some (some "secret") :=
  ⟨rfl, rfl⟩

/-- C3 counterexample: a first receive that fails with a terminal transport
error (here a connection reset, observable through `Err()` on the handle
after the failed receive) does not get propagated: `ChatCompleteStream`
returns `TruncatedStreamResponseError` instead, so that error is not
reserved for a stream that ends cleanly with no element at all. -/
theorem chatCompleteStream_first_read_transport_error_not_propagated :
    ChatCompleteStream (Except.ok brokenStream) = Except.error TruncatedStreamResponseError ∧
    ((brokenStream.Receive).2).Err = some (GoError.transport "connection reset") ∧
    TruncatedStreamResponseError ≠ GoError.transport "connection reset" :=
  ⟨rfl, rfl, by decide⟩

/-- C3 (amended): a transport error attached to a successfully received
first element is propagated; a first receive that yields no element —
whether a clean end of stream or a terminal transport failure — makes the
call fail with `TruncatedStreamResponseError`; a call-setup error
propagates. -/
theorem chatCompleteStream_first_read_error_semantics
    (s : ServerStreamForClient apigatewayv1.ChatCompleteStreamResponse) :
    (∀ (m : apigatewayv1.ChatCompleteStreamResponse) (e : GoError)
        (rest : List (apigatewayv1.ChatCompleteStreamResponse × Option GoError)),
        s.pending = (m, some e) :: rest →
        ChatCompleteStream (Except.ok s) = Except.error e) ∧
    (s.pending = [] →
        ChatCompleteStream (Except.ok s) = Except.error TruncatedStreamResponseError) ∧
    (∀ err : GoError, ChatCompleteStream (Except.error err) = Except.error err) := by
  refine ⟨?_, ?_, fun err => rfl⟩
  · intro m e rest hp
    simp [ChatCompleteStream, receive_cons s m (some e) rest hp, ServerStreamForClient.Err]
  · intro hp
    simp [ChatCompleteStream, receive_nil s hp]

/-- Witness for the amended C3 at a concrete stream whose first element
carries an attached transport error. -/
theorem chatCompleteStream_first_read_error_semantics_witness :
    ChatCompleteStream (Except.ok advisoryErrStream) =
      Except.error (GoError.transport "advisory") :=
  (chatCompleteStream_first_read_error_semantics advisoryErrStream).1
    advisoryChunk (GoError.transport "advisory") [] rfl

/-- C4 counterexample: a `Read` whose underlying receive fails with a
terminal transport error (not the clean no-more-data signal: `Err()` on the
handle reports a connection reset) still returns `io.EOF`, so that transport
error is not propagated to the caller. -/
theorem read_maps_terminal_transport_error_to_eof :
    ((wrapStream brokenStream chatCompleteStreamToStringTransformer).Read).1
      = ("", some GoError.ioEOF) ∧
    ((brokenStream.Receive).2).Err = some (GoError.transport "connection reset") ∧
    some GoError.ioEOF ≠ some (GoError.transport "connection reset") :=
  ⟨rfl, rfl, by decide⟩

/-- C4 (amended): when `Read` obtains an element, the error the transport
attached to that element is returned unmodified alongside the projected
value; when the underlying receive yields no element — clean exhaustion or
terminal transport failure alike — `Read` returns the end-of-stream sentinel
`io.EOF`. -/
theorem read_error_propagation_semantics {TIn TOut : Type} [Inhabited TOut]
    (r : ResponseStream TIn TOut) (h : r.IsClosed = false) :
    (∀ (m : TIn) (e : Option GoError) (rest : List (TIn × Option GoError)),
        r.stream.pending = (m, e) :: rest → (r.Read).1 = (r.transformer m, e)) ∧
    (r.stream.pending = [] → (r.Read).1 = ((default : TOut), some GoError.ioEOF)) := by
  constructor
  · intro m e rest hp
    rw [read_open_cons r m e rest h hp]
  · intro hp
    rw [read_open_nil r h hp]

/-- Witness for the amended C4 at a concrete stream whose first element
carries an attached advisory error. -/
theorem read_error_propagation_semantics_witness :
    ((wrapStream advisoryErrStream chatCompleteStreamToStringTransformer).Read).1
      = ("tok", some (GoError.transport "advisory")) :=
  (read_error_propagation_semantics
      (wrapStream advisoryErrStream chatCompleteStreamToStringTransformer) rfl).1
    advisoryChunk (some (GoError.transport "advisory")) [] rfl

/-- C5: a streaming chat-complete call whose underlying stream produces zero
elements before ending fails with `TruncatedStreamResponseError` and returns
no streamed-response value. -/
theorem chatCompleteStream_empty_stream_truncated
    (s : ServerStreamForClient apigatewayv1.ChatCompleteStreamResponse)
    (h : s.pending = []) :
    ChatCompleteStream (Except.ok s) = Except.error TruncatedStreamResponseError := by
  simp [ChatCompleteStream, receive_nil s h]

/-- Witness for C5 at a concrete stream that ends cleanly with no element. -/
theorem chatCompleteStream_empty_stream_truncated_witness :
    ChatCompleteStream (Except.ok emptyStream) = Except.error TruncatedStreamResponseError :=
  chatCompleteStream_empty_stream_truncated emptyStream rfl

/-- C6: for a streaming chat-complete call whose first wire element carries
role `"assistant"` and whose subsequent elements carry contents `"Hello"`
and `" world"`, the returned value has role `"assistant"`, its token stream
reads `"Hello"` then `" world"`, and a third read returns `io.EOF`. -/
theorem chatCompleteStream_hello_world :
    responseRole (ChatCompleteStream (Except.ok helloStream)) = some "assistant" ∧
    responseTokenReads 3 (ChatCompleteStream (Except.ok helloStream)) =
      some [("Hello", none), (" world", none), ("", some GoError.ioEOF)] :=
  ⟨rfl, rfl⟩

/-- C7: `NewClient` fails with `MissingApiKeyError` exactly when the
configured API key is empty; for every options value with a non-empty key —
whatever the other fields — it returns a client and no error. -/
theorem newClient_missing_api_key_validation (options : ClientOptions) :
    (options.ApiKey = "" → NewClient options = Except.error MissingApiKeyError) ∧
    (options.ApiKey ≠ "" → ∃ c : Client, NewClient options = Except.ok c) := by
  constructor
  · intro h
    simp [NewClient, h]
  · intro h
    simp only [NewClient, if_neg h]
    exact ⟨_, rfl⟩

/-- Witness for C7 at the empty key and at the key the repository's own test
uses. -/
theorem newClient_missing_api_key_validation_witness :
    NewClient { ApiKey := "", HttpClient := none, BaseUrl := "" } =
      Except.error MissingApiKeyError ∧
    (NewClient { ApiKey := "mykey", HttpClient := none, BaseUrl := "" }).isOk = true := by
  constructor
  · exact (newClient_missing_api_key_validation _).1 rfl
  · obtain ⟨c, hc⟩ :=
      (newClient_missing_api_key_validation
        { ApiKey := "mykey", HttpClient := none, BaseUrl := "" }).2 (by decide)
    rw [hc]
    rfl

/-- C8: `Close` returns exactly the teardown error the transport reports,
unconditionally leaves the stream closed, and is idempotent — a second
`Close` returns the same teardown error and leaves the state unchanged and
closed, even when the teardown reports an error. -/
theorem close_sets_closed_and_is_idempotent {TIn TOut : Type}
    (r : ResponseStream TIn TOut) :
    (r.Close).1 = r.stream.Close ∧
    ((r.Close).2).IsClosed = true ∧
    ((r.Close).2).Close = (r.stream.Close, (r.Close).2) :=
  ⟨rfl, rfl, rfl⟩

/-- C9: `NewClient` resolves an absent transport to `http.DefaultClient` and
an absent base URL to `DefaultBaseUrl` (which is
`"https://api.function.network"`), and uses the caller-supplied values
otherwise. -/
theorem newClient_default_resolution (options : ClientOptions) (c : Client)
    (h : NewClient options = Except.ok c) :
    (options.HttpClient = none → c.service.httpClient = HttpClient.defaultClient) ∧
    (∀ hc : HttpClient, options.HttpClient = some hc → c.service.httpClient = hc) ∧
    (options.BaseUrl = "" → c.service.baseUrl = DefaultBaseUrl) ∧
    (options.BaseUrl ≠ "" → c.service.baseUrl = options.BaseUrl) ∧
    DefaultBaseUrl = "https://api.function.network" := by
  by_cases hk : options.ApiKey = ""
  · simp [NewClient, hk] at h
  · simp only [NewClient, if_neg hk, Except.ok.injEq] at h
    subst h
    refine ⟨?_, ?_, ?_, ?_, rfl⟩
    · intro hc
      simp [NewAPIGatewayServiceClient, hc]
    · intro hcli hc
      simp [NewAPIGatewayServiceClient, hc]
    · intro hb
      simp [NewAPIGatewayServiceClient, hb]
    · intro hb
      simp [NewAPIGatewayServiceClient, if_neg hb]

/-- Witness for C9 at options with key `"k"` and both optional fields
absent. -/
theorem newClient_default_resolution_witness :
    defaultOptionsClient.service.httpClient = HttpClient.defaultClient ∧
    defaultOptionsClient.service.baseUrl = DefaultBaseUrl := by
  have h := newClient_default_resolution
    { ApiKey := "k", HttpClient := none, BaseUrl := "" } defaultOptionsClient rfl
  exact ⟨h.1 rfl, h.2.2.1 rfl⟩

/-- C10: a `Read` that finds an element returns the projected value paired
with whatever error the transport attached to that element, and leaves the
closed flag false even when that error is non-nil, so the next read still
attempts the underlying stream. -/
theorem read_element_leaves_stream_open {TIn TOut : Type} [Inhabited TOut]
    (r : ResponseStream TIn TOut) (m : TIn) (e : Option GoError)
    (rest : List (TIn × Option GoError))
    (h : r.IsClosed = false) (hp : r.stream.pending = (m, e) :: rest) :
    (r.Read).1 = (r.transformer m, e) ∧ ((r.Read).2).IsClosed = false := by
  rw [read_open_cons r m e rest h hp]
  exact ⟨rfl, h⟩

/-- Witness for C10 at a concrete stream whose available element carries a
non-nil attached error. -/
theorem read_element_leaves_stream_open_witness :
    ((wrapStream advisoryErrStream chatCompleteStreamToStringTransformer).Read).1
        = ("tok", some (GoError.transport "advisory")) ∧
    (((wrapStream advisoryErrStream chatCompleteStreamToStringTransformer).Read).2).IsClosed
        = false :=
  read_element_leaves_stream_open
    (wrapStream advisoryErrStream chatCompleteStreamToStringTransformer)
    advisoryChunk (some (GoError.transport "advisory")) [] rfl rfl
